import Mathlib

/-!
Verification of the iCloud Private Relay IP List Manager worker
(`src/index.js`).

The worker is a straight-line orchestrator around four effectful steps
(fetch the upstream IPv4 feed, validate each entry, find-or-create a
Cloudflare list, full-replace the list's items).  The embedding below is a
shallow one:

* the regex validator `validateIPv4OrCIDR` is transcribed character-level
  over `List Char` (the octet and CIDR-suffix alternations are spelled out
  exactly as in the two regexes on lines 38-40 of `src/index.js`);
* every network call is modelled by an `Oracle` field of type
  `Except String resp`: `Except.error` is a transport-level rejection of
  the call, `Except.ok` a delivered HTTP response whose `status` field
  determines `Response.ok` via `statusOk` (the fetch API's 200-299 range);
* each effectful function returns, next to its `Except` result, the list
  of outgoing `Request`s it issued, so that "zero creation calls" or
  "exactly one PUT" are provable facts about the trace;
* the remote list's content is modelled by `applyRequests`: each item
  PUT replaces the whole content (full-replace semantics);
* `runSteps` is the body of the `scheduled` handler's `try` block and
  `scheduled` wraps it with the `catch` that maps every raised error to a
  terminal log, mirroring lines 118-144 of `src/index.js`.
-/

namespace Relay

/-- JSON values as delivered by the upstream feed and the management API. -/
inductive Json where
  | null
  | bool (b : Bool)
  | num (n : Nat)
  | str (s : String)
  | arr (elems : List Json)
  | obj (fields : List (String × Json))

/-- Field lookup in a JSON object, used to state facts about response bodies. -/
def Json.getField? (j : Json) (key : String) : Option Json :=
  match j with
  | .obj fields => fields.lookup key
  | _ => none

/-- The environment bindings read by the worker (wrangler configuration). -/
structure Env where
  ACCOUNT_ID : String
  API_TOKEN : String
  LIST_NAME : String
  IP_LIST_SOURCE_URL : String

/-- One list record of the management API's list collection (`{id, name, kind, description}`). -/
structure ListInfo where
  id : String
  name : String
  kind : String
  description : String
  deriving DecidableEq

/-- One item record of the PUT body: `{ ip }` (line 88 of `src/index.js`). -/
structure ListItem where
  ip : String
  deriving DecidableEq

/-- Outgoing network requests issued by the worker, in issue order. -/
inductive Request where
  | getSource (url : String)
  | getLists (accountId : String)
  | createList (accountId : String) (name : String) (kind : String) (description : String)
  | putItems (accountId : String) (listId : String) (items : List ListItem)
  deriving DecidableEq

/-- Response to the upstream feed GET: a status plus the parsed JSON array of strings. -/
structure FetchResp where
  status : Nat
  body : List String

/-- Response to the list-collection GET: a status plus the parsed `result` array. -/
structure ListsResp where
  status : Nat
  result : List ListInfo

/-- Response to the list-creation POST: a status, the created list's
`result.id`, and (for the failure path) the stringified error payload. -/
structure CreateResp where
  status : Nat
  newId : String
  errorData : String

/-- Response to the item-replacement PUT: a status, the parsed JSON body
(returned on success), and the stringified error payload (for the failure path). -/
structure UpdateResp where
  status : Nat
  body : Json
  errorData : String

/-- The fetch API's `Response.ok`: status in the inclusive range 200-299. -/
def statusOk (status : Nat) : Bool :=
  decide (200 ≤ status) && decide (status ≤ 299)

/-- Character-level transcription of the octet alternation
`25[0-5]|2[0-4][0-9]|1[0-9]{2}|[1-9]?[0-9]` of the two regexes on lines
38-40 of `src/index.js`, split by match length. -/
def matchOctet : List Char → Bool
  | [a] => a.isDigit
  | [a, b] => (decide ('1' ≤ a) && decide (a ≤ '9')) && b.isDigit
  | [a, b, c] =>
    (a == '2' && b == '5' && (decide ('0' ≤ c) && decide (c ≤ '5'))) ||
    (a == '2' && (decide ('0' ≤ b) && decide (b ≤ '4')) && c.isDigit) ||
    (a == '1' && b.isDigit && c.isDigit)
  | _ => false

/-- Character-level transcription of the CIDR-suffix alternation
`8|9|[1-2][0-9]|3[0-2]` of the regex on line 40 of `src/index.js`. -/
def matchCidrSuffix : List Char → Bool
  | [a] => a == '8' || a == '9'
  | [a, b] =>
    ((decide ('1' ≤ a) && decide (a ≤ '2')) && b.isDigit) ||
    (a == '3' && (decide ('0' ≤ b) && decide (b ≤ '2')))
  | _ => false

/-- The anchored regex `^octet(\.octet){3}$` of line 38: exactly four
dot-separated components, each matching the octet alternation.  Since the
octet alternation admits no dot, splitting on the dot is exact. -/
def ipv4Match (cs : List Char) : Bool :=
  match cs.splitOn '.' with
  | [o1, o2, o3, o4] => matchOctet o1 && matchOctet o2 && matchOctet o3 && matchOctet o4
  | _ => false

/-- The anchored regex of line 40: a dotted quad, one slash, and a CIDR
suffix.  Neither side of the slash may itself hold a slash. -/
def cidrMatch (cs : List Char) : Bool :=
  match cs.splitOn '/' with
  | [addr, suffix] => ipv4Match addr && matchCidrSuffix suffix
  | _ => false

/-- Embedding of `validateIPv4OrCIDR` (lines 36-43 of `src/index.js`):
`ipv4Regex.test(input) || cidrRegex.test(input)`. -/
def validateIPv4OrCIDR (input : String) : Bool :=
  ipv4Match input.toList || cidrMatch input.toList

/-- Numeric value of a decimal digit string (used by the specification side). -/
def digitsVal (cs : List Char) : Nat :=
  cs.foldl (fun acc c => 10 * acc + (c.toNat - 48)) 0

/-- A decimal string in standard form has no leading zero (other than "0" itself). -/
def noLeadingZero : List Char → Bool
  | [] => true
  | c :: rest => !(c == '0') || rest.isEmpty

/-- A nonempty all-digit string in standard decimal form. -/
def specDecimal (cs : List Char) : Bool :=
  !cs.isEmpty && cs.all Char.isDigit && noLeadingZero cs

/-- Specification-side octet: an integer 0-255 written in standard decimal form. -/
def specOctet (cs : List Char) : Bool :=
  specDecimal cs && decide (digitsVal cs ≤ 255)

/-- Specification-side CIDR suffix: an integer in the inclusive range 8-32
written in standard decimal form. -/
def specSuffix (cs : List Char) : Bool :=
  specDecimal cs && decide (8 ≤ digitsVal cs) && decide (digitsVal cs ≤ 32)

/-- Specification-side dotted quad: four octets separated by dots. -/
def specDottedQuad (cs : List Char) : Bool :=
  match cs.splitOn '.' with
  | [o1, o2, o3, o4] => specOctet o1 && specOctet o2 && specOctet o3 && specOctet o4
  | _ => false

/-- Specification-side CIDR form: a dotted quad followed by one slash and a suffix. -/
def specQuadWithSuffix (cs : List Char) : Bool :=
  match cs.splitOn '/' with
  | [addr, suffix] => specDottedQuad addr && specSuffix suffix
  | _ => false

/-- Specification of the validator, written from the spec's words: a
well-formed IPv4 dotted quad with each octet an integer 0-255, either bare
or followed by a CIDR suffix in the inclusive range 8-32. -/
def specIPv4OrCIDR (cs : List Char) : Bool :=
  specDottedQuad cs || specQuadWithSuffix cs

/-- The fixed description string used on list creation (line 74 of `src/index.js`). -/
def listDescription : String :=
  "Managed List of iCloud Private Relay egress IP addresses created by Cloudflare Worker"

/-- Embedding of `fetchIPv4List` (lines 26-34): one GET against the source
URL; throws when the transport rejects or the status is not ok, otherwise
returns the parsed JSON array. -/
def fetchIPv4List (sourceURL : String) (transport : Except String FetchResp) :
    Except String (List String) × List Request :=
  match transport with
  | .error e => (.error e, [Request.getSource sourceURL])
  | .ok response =>
    if !(statusOk response.status) then
      (.error (("Failed to fetch IP list: ") ++ toString response.status),
       [Request.getSource sourceURL])
    else
      (.ok response.body, [Request.getSource sourceURL])

/-- Embedding of `getOrCreateList` (lines 45-85): GET the list collection,
scan it for `name === env.LIST_NAME`; on a hit return that id, otherwise
POST a creation request (`kind: "ip"`, fixed description) and return the
created id.  The second component is the trace of issued requests. -/
def getOrCreateList (env : Env) (listsTransport : Except String ListsResp)
    (createTransport : Except String CreateResp) : Except String String × List Request :=
  match listsTransport with
  | .error e => (.error e, [Request.getLists env.ACCOUNT_ID])
  | .ok listsResponse =>
    if !(statusOk listsResponse.status) then
      (.error (("Failed to fetch lists: ") ++ toString listsResponse.status),
       [Request.getLists env.ACCOUNT_ID])
    else
      match listsResponse.result.find? (fun list => list.name == env.LIST_NAME) with
      | some existingList => (.ok existingList.id, [Request.getLists env.ACCOUNT_ID])
      | none =>
        let requests := [Request.getLists env.ACCOUNT_ID,
          Request.createList env.ACCOUNT_ID env.LIST_NAME ("ip") listDescription]
        match createTransport with
        | .error e => (.error e, requests)
        | .ok createResponse =>
          if !(statusOk createResponse.status) then
            (.error (("Failed to create list: ") ++ createResponse.errorData), requests)
          else
            (.ok createResponse.newId, requests)

/-- Embedding of `updateListItems` (lines 87-105): map each validated
literal to an `{ ip }` record, PUT the whole item collection once, and on
success return the parsed JSON body of the response. -/
def updateListItems (listId : String) (validIPs : List String) (env : Env)
    (transport : Except String UpdateResp) : Except String Json × List Request :=
  let items := validIPs.map (fun ip => ListItem.mk ip)
  let requests := [Request.putItems env.ACCOUNT_ID listId items]
  match transport with
  | .error e => (.error e, requests)
  | .ok updateResponse =>
    if !(statusOk updateResponse.status) then
      (.error (("Failed to update list items: ") ++ updateResponse.errorData), requests)
    else
      (.ok updateResponse.body, requests)

/-- Console output of the scheduled handler.  `stackTrace` stands for the
`console.error(error.stack)` line, whose content is a runtime artifact. -/
inductive LogEntry where
  | info (msg : String)
  | errorLine (msg : String)
  | infoJson (msg : String) (payload : Json)
  | stackTrace

/-- How a scheduled run ended.  All three outcomes are normal returns of
the handler; `failed` is the caught-and-logged path of the `catch` block. -/
inductive SchedOutcome where
  | success (result : Json)
  | emptyAbort
  | failed (message : String)

/-- Result of the `try` block body: `Except.error` is a raised error
reaching the catch, `Except.ok none` the early return on an empty
validated set, `Except.ok (some j)` the full success path. -/
structure RunResult where
  result : Except String (Option Json)
  requests : List Request
  logs : List LogEntry

/-- Observable result of one scheduled invocation. -/
structure SchedResult where
  outcome : SchedOutcome
  requests : List Request
  logs : List LogEntry

/-- Responses the network would deliver to each of the four calls of one run. -/
structure Oracle where
  fetchResult : Except String FetchResp
  listsResult : Except String ListsResp
  createResult : Except String CreateResp
  updateResult : Except String UpdateResp

/-- The validated set of a run: `ipv4List.filter(validateIPv4OrCIDR)` (line 124). -/
def validatedSet (ipv4List : List String) : List String :=
  ipv4List.filter validateIPv4OrCIDR

/-- Body of the `try` block of the `scheduled` handler (lines 119-138):
fetch, validate, guard on the empty validated set, resolve the list id,
replace the items. -/
def runSteps (env : Env) (o : Oracle) : RunResult :=
  let log0 := LogEntry.info ("Fetching IPv4 list from source URL...")
  match fetchIPv4List env.IP_LIST_SOURCE_URL o.fetchResult with
  | (Except.error e, fetchReqs) => ⟨.error e, fetchReqs, [log0]⟩
  | (Except.ok ipv4List, fetchReqs) =>
    let log1 := LogEntry.info (("Fetched ") ++ toString ipv4List.length ++
      (" entries. Validating IPs and CIDR ranges..."))
    let validIPs := validatedSet ipv4List
    if validIPs.length == 0 then
      ⟨.ok none, fetchReqs,
       [log0, log1, LogEntry.errorLine ("No valid IPs or CIDR ranges found.")]⟩
    else
      let log2 := LogEntry.info (("Found ") ++ toString validIPs.length ++
        (" valid entries. Fetching or creating the Cloudflare Managed List..."))
      match getOrCreateList env o.listsResult o.createResult with
      | (Except.error e, listReqs) => ⟨.error e, fetchReqs ++ listReqs, [log0, log1, log2]⟩
      | (Except.ok listId, listReqs) =>
        let log3 := LogEntry.info (("Updating the list with ") ++ toString validIPs.length ++
          (" items..."))
        match updateListItems listId validIPs env o.updateResult with
        | (Except.error e, updateReqs) =>
          ⟨.error e, fetchReqs ++ listReqs ++ updateReqs, [log0, log1, log2, log3]⟩
        | (Except.ok result, updateReqs) =>
          ⟨.ok (some result), fetchReqs ++ listReqs ++ updateReqs,
           [log0, log1, log2, log3, LogEntry.infoJson ("List updated successfully:") result,
            LogEntry.info ("Cron Trigger processed successfully!")]⟩

/-- The catch block's console output (lines 139-143). -/
def catchLogs (message : String) : List LogEntry :=
  [LogEntry.info ("ERROR"),
   LogEntry.errorLine (("Error during scheduled task: ") ++ message),
   LogEntry.stackTrace]

/-- Embedding of the `scheduled` handler (lines 118-144): run the try
block; any raised error is caught, logged, and the handler returns
normally.  The total return type `SchedResult` (no `Except`) is the
formal counterpart of "never propagates an exception to the host". -/
def scheduled (env : Env) (o : Oracle) : SchedResult :=
  let run := runSteps env o
  match run.result with
  | .error e => ⟨.failed e, run.requests, run.logs ++ catchLogs e⟩
  | .ok none => ⟨.emptyAbort, run.requests, run.logs⟩
  | .ok (some result) => ⟨.success result, run.requests, run.logs⟩

/-- Remote-list semantics of a single request: an item PUT replaces the
whole content (full-replace), every other request leaves it unchanged. -/
def applyRequest (content : List ListItem) (req : Request) : List ListItem :=
  match req with
  | .putItems _ _ items => items
  | _ => content

/-- Remote-list content after a trace of requests. -/
def applyRequests (content : List ListItem) (reqs : List Request) : List ListItem :=
  reqs.foldl applyRequest content

/-- An inbound HTTP request, reduced to the two fields the worker reads:
the method and the URL's pathname. -/
structure HttpRequest where
  method : String
  pathname : String

/-- An HTTP response: status code and body (JSON or plain text). -/
structure HttpResponse where
  status : Nat
  body : Json

/-- The `cron_trigger_info` object of the `/info` body (lines 10-14). -/
def cronTriggerInfo : Json :=
  Json.obj
    [(("description"),
      Json.str ("This Worker is scheduled to run every 14 days to fetch and update an IPv4 list.")),
     (("cron_schedule"), Json.str ("0 0 */14 * *")),
     (("time_zone"), Json.str ("UTC"))]

/-- The JSON body served on `GET /info` (lines 7-16). -/
def infoBody : Json :=
  Json.obj
    [(("worker_name"), Json.str ("iCloud Private Relay IP List Manager")),
     (("cron_trigger_info"), cronTriggerInfo),
     (("status"), Json.str ("Worker is running"))]

/-- Embedding of `handleGetRequest` (lines 4-24): `/info` gets the JSON
info body with the default 200 status, any other path gets 404. -/
def handleGetRequest (request : HttpRequest) : HttpResponse :=
  if request.pathname == "/info" then
    ⟨200, infoBody⟩
  else
    ⟨404, Json.str ("Not Found")⟩

/-- Embedding of the exported `fetch` handler (lines 108-116): GET requests
are routed to `handleGetRequest`, every other method gets 405. -/
def fetchHandler (request : HttpRequest) : HttpResponse :=
  if request.method == "GET" then
    handleGetRequest request
  else
    ⟨405, Json.str ("Method Not Allowed")⟩

/-- A concrete environment used by the witness theorems. -/
def sampleEnv : Env :=
  ⟨("acct-1"), ("tok"), ("icloud_relay"), ("https://example.com/ips.json")⟩

/-- An oracle whose upstream fetch is rejected at the transport level. -/
def oracleFetchDown : Oracle :=
  ⟨Except.error ("network down"), Except.error ("x"), Except.error ("x"), Except.error ("x")⟩

/-- An oracle whose fetch succeeds but delivers no valid entry. -/
def oracleAllInvalid : Oracle :=
  ⟨Except.ok ⟨200, [("not-an-ip"), ("999.1.1.1")]⟩,
   Except.error ("x"), Except.error ("x"), Except.error ("x")⟩

/-- A successful update response carrying an opaque JSON body. -/
def sampleUpdateResp : UpdateResp :=
  ⟨200, Json.str ("api-response"), ("api-error")⟩

/-- A lists response holding two lists that both carry the configured name. -/
def sampleListsResp : ListsResp :=
  ⟨200,
   [⟨("id-first"), ("icloud_relay"), ("ip"), ("d1")⟩,
    ⟨("id-second"), ("icloud_relay"), ("ip"), ("d2")⟩]⟩

/-- A lists response with no list of the configured name. -/
def sampleListsRespNoMatch : ListsResp :=
  ⟨200, [⟨("other-id"), ("other_name"), ("ip"), ("d3")⟩]⟩

/-- A successful creation response. -/
def sampleCreateResp : CreateResp :=
  ⟨200, ("created-id"), ("create-error")⟩

/-- An oracle describing a fully successful run on the creation path. -/
def oracleCreatePath : Oracle :=
  ⟨Except.ok ⟨200, [("1.2.3.4"), ("999.1.1.1")]⟩,
   Except.ok sampleListsRespNoMatch,
   Except.ok sampleCreateResp,
   Except.ok sampleUpdateResp⟩

theorem char_le_iff_toNat (a b : Char) : a ≤ b ↔ a.toNat ≤ b.toNat := Iff.rfl

theorem char_eq_iff_toNat (a b : Char) : a = b ↔ a.toNat = b.toNat := by
  constructor
  · intro h; rw [h]
  · intro h
    exact Char.ext (UInt32.eq_of_toBitVec_eq (BitVec.eq_of_toNat_eq h))

theorem isDigit_iff_toNat (c : Char) : c.isDigit = true ↔ 48 ≤ c.toNat ∧ c.toNat ≤ 57 := by
  simp only [Char.isDigit, Bool.and_eq_true, decide_eq_true_iff]
  exact Iff.rfl

theorem foldl_digits_ge (l : List Char) (acc : Nat) :
    acc * 10 ^ l.length ≤ l.foldl (fun a c => 10 * a + (c.toNat - 48)) acc := by
  induction l generalizing acc with
  | nil => simp
  | cons c l ih =>
    simp only [List.foldl_cons, List.length_cons]
    calc acc * 10 ^ (l.length + 1) = (10 * acc) * 10 ^ l.length := by ring
    _ ≤ (10 * acc + (c.toNat - 48)) * 10 ^ l.length := by
        exact Nat.mul_le_mul_right _ (Nat.le_add_right _ _)
    _ ≤ l.foldl (fun a c => 10 * a + (c.toNat - 48)) (10 * acc + (c.toNat - 48)) := ih _

theorem matchOctet_eq_specOctet (cs : List Char) : matchOctet cs = specOctet cs := by
  have h0 : ('0' : Char).toNat = 48 := by decide
  have h1 : ('1' : Char).toNat = 49 := by decide
  have h2 : ('2' : Char).toNat = 50 := by decide
  have h4 : ('4' : Char).toNat = 52 := by decide
  have h5 : ('5' : Char).toNat = 53 := by decide
  have h9 : ('9' : Char).toNat = 57 := by decide
  match cs with
  | [] => rfl
  | [a] =>
    rw [Bool.eq_iff_iff]
    simp only [matchOctet, specOctet, specDecimal, noLeadingZero, digitsVal, List.foldl,
      List.all_cons, List.all_nil, List.isEmpty_cons, List.isEmpty_nil, Bool.not_false,
      Bool.and_true, Bool.true_and, Bool.and_eq_true, Bool.or_eq_true, Bool.not_eq_true',
      decide_eq_true_iff, beq_iff_eq, beq_eq_false_iff_ne, ne_eq, isDigit_iff_toNat,
      char_le_iff_toNat, char_eq_iff_toNat, or_true, or_false, and_true, true_and,
      h0, h1, h2, h4, h5, h9]
    omega
  | [a, b] =>
    rw [Bool.eq_iff_iff]
    simp only [matchOctet, specOctet, specDecimal, noLeadingZero, digitsVal, List.foldl,
      List.all_cons, List.all_nil, List.isEmpty_cons, List.isEmpty_nil, Bool.not_false,
      Bool.and_true, Bool.true_and, Bool.and_eq_true, Bool.or_eq_true, Bool.not_eq_true',
      decide_eq_true_iff, beq_iff_eq, beq_eq_false_iff_ne, ne_eq, isDigit_iff_toNat,
      char_le_iff_toNat, char_eq_iff_toNat, or_true, or_false, and_true, true_and,
      Bool.false_eq_true, h0, h1, h2, h4, h5, h9]
    omega
  | [a, b, c] =>
    rw [Bool.eq_iff_iff]
    simp only [matchOctet, specOctet, specDecimal, noLeadingZero, digitsVal, List.foldl,
      List.all_cons, List.all_nil, List.isEmpty_cons, List.isEmpty_nil, Bool.not_false,
      Bool.and_true, Bool.true_and, Bool.and_eq_true, Bool.or_eq_true, Bool.not_eq_true',
      decide_eq_true_iff, beq_iff_eq, beq_eq_false_iff_ne, ne_eq, isDigit_iff_toNat,
      char_le_iff_toNat, char_eq_iff_toNat, or_true, or_false, and_true, true_and,
      Bool.false_eq_true, h0, h1, h2, h4, h5, h9]
    omega
  | a :: b :: c :: d :: rest =>
    have hspec : specOctet (a :: b :: c :: d :: rest) = false := by
      rw [Bool.eq_false_iff]
      intro hyp
      simp only [specOctet, specDecimal, Bool.and_eq_true, decide_eq_true_iff] at hyp
      obtain ⟨⟨⟨_, hdig⟩, hz⟩, hv⟩ := hyp
      simp only [List.all_cons, Bool.and_eq_true, isDigit_iff_toNat] at hdig
      simp only [noLeadingZero, Bool.or_eq_true, Bool.not_eq_true', beq_eq_false_iff_ne,
        ne_eq, char_eq_iff_toNat, List.isEmpty_cons, Bool.false_eq_true, or_false, h0] at hz
      have hlow : (a.toNat - 48) * 10 ^ (b :: c :: d :: rest).length ≤
          digitsVal (a :: b :: c :: d :: rest) := by
        simpa [digitsVal] using foldl_digits_ge (b :: c :: d :: rest) (a.toNat - 48)
      have hpow : 1000 ≤ 10 ^ (b :: c :: d :: rest).length := by
        have hlen : (b :: c :: d :: rest).length = 3 + rest.length := by simp; omega
        rw [hlen]
        calc (1000 : Nat) = 10 ^ 3 := by norm_num
        _ ≤ 10 ^ (3 + rest.length) := Nat.pow_le_pow_right (by norm_num) (by omega)
      have hone : 1 ≤ a.toNat - 48 := by omega
      have : 1000 ≤ digitsVal (a :: b :: c :: d :: rest) := by
        calc (1000 : Nat) = 1 * 1000 := by ring
        _ ≤ (a.toNat - 48) * 10 ^ (b :: c :: d :: rest).length :=
            Nat.mul_le_mul hone hpow
        _ ≤ _ := hlow
      omega
    rw [hspec]
    rfl

theorem matchCidrSuffix_eq_specSuffix (cs : List Char) :
    matchCidrSuffix cs = specSuffix cs := by
  have h0 : ('0' : Char).toNat = 48 := by decide
  have h2 : ('2' : Char).toNat = 50 := by decide
  have h3 : ('3' : Char).toNat = 51 := by decide
  have h8 : ('8' : Char).toNat = 56 := by decide
  have h9 : ('9' : Char).toNat = 57 := by decide
  have h1 : ('1' : Char).toNat = 49 := by decide
  match cs with
  | [] => rfl
  | [a] =>
    rw [Bool.eq_iff_iff]
    simp only [matchCidrSuffix, specSuffix, specDecimal, noLeadingZero, digitsVal, List.foldl,
      List.all_cons, List.all_nil, List.isEmpty_cons, List.isEmpty_nil, Bool.not_false,
      Bool.and_true, Bool.true_and, Bool.and_eq_true, Bool.or_eq_true, Bool.not_eq_true',
      decide_eq_true_iff, beq_iff_eq, beq_eq_false_iff_ne, ne_eq, isDigit_iff_toNat,
      char_le_iff_toNat, char_eq_iff_toNat, or_true, or_false, and_true, true_and,
      Bool.false_eq_true, h0, h1, h2, h3, h8, h9]
    omega
  | [a, b] =>
    rw [Bool.eq_iff_iff]
    simp only [matchCidrSuffix, specSuffix, specDecimal, noLeadingZero, digitsVal, List.foldl,
      List.all_cons, List.all_nil, List.isEmpty_cons, List.isEmpty_nil, Bool.not_false,
      Bool.and_true, Bool.true_and, Bool.and_eq_true, Bool.or_eq_true, Bool.not_eq_true',
      decide_eq_true_iff, beq_iff_eq, beq_eq_false_iff_ne, ne_eq, isDigit_iff_toNat,
      char_le_iff_toNat, char_eq_iff_toNat, or_true, or_false, and_true, true_and,
      Bool.false_eq_true, h0, h1, h2, h3, h8, h9]
    omega
  | a :: b :: c :: rest =>
    have hspec : specSuffix (a :: b :: c :: rest) = false := by
      rw [Bool.eq_false_iff]
      intro hyp
      simp only [specSuffix, specDecimal, Bool.and_eq_true, decide_eq_true_iff] at hyp
      obtain ⟨⟨⟨⟨_, hdig⟩, hz⟩, _⟩, hv⟩ := hyp
      simp only [List.all_cons, Bool.and_eq_true, isDigit_iff_toNat] at hdig
      simp only [noLeadingZero, Bool.or_eq_true, Bool.not_eq_true', beq_eq_false_iff_ne,
        ne_eq, char_eq_iff_toNat, List.isEmpty_cons, Bool.false_eq_true, or_false, h0] at hz
      have hlow : (a.toNat - 48) * 10 ^ (b :: c :: rest).length ≤
          digitsVal (a :: b :: c :: rest) := by
        simpa [digitsVal] using foldl_digits_ge (b :: c :: rest) (a.toNat - 48)
      have hpow : 100 ≤ 10 ^ (b :: c :: rest).length := by
        have hlen : (b :: c :: rest).length = 2 + rest.length := by simp; omega
        rw [hlen]
        calc (100 : Nat) = 10 ^ 2 := by norm_num
        _ ≤ 10 ^ (2 + rest.length) := Nat.pow_le_pow_right (by norm_num) (by omega)
      have hone : 1 ≤ a.toNat - 48 := by omega
      have : 100 ≤ digitsVal (a :: b :: c :: rest) := by
        calc (100 : Nat) = 1 * 100 := by ring
        _ ≤ (a.toNat - 48) * 10 ^ (b :: c :: rest).length := Nat.mul_le_mul hone hpow
        _ ≤ _ := hlow
      omega
    rw [hspec]
    rfl

theorem ipv4Match_eq_specDottedQuad (cs : List Char) :
    ipv4Match cs = specDottedQuad cs := by
  unfold ipv4Match specDottedQuad
  generalize cs.splitOn '.' = parts
  rcases parts with _ | ⟨o1, _ | ⟨o2, _ | ⟨o3, _ | ⟨o4, _ | ⟨o5, t⟩⟩⟩⟩⟩ <;>
    simp only [matchOctet_eq_specOctet]

theorem cidrMatch_eq_specQuadWithSuffix (cs : List Char) :
    cidrMatch cs = specQuadWithSuffix cs := by
  unfold cidrMatch specQuadWithSuffix
  generalize cs.splitOn '/' = parts
  rcases parts with _ | ⟨addr, _ | ⟨suf, t⟩⟩ <;>
    simp only [ipv4Match_eq_specDottedQuad, matchCidrSuffix_eq_specSuffix]

/-- Claim C2: for every input string, `validateIPv4OrCIDR` returns true
exactly when the string is a well-formed IPv4 dotted quad with each octet
an integer 0-255 in standard decimal form, either bare or followed by a
CIDR suffix in the inclusive range 8-32; in particular it returns false
for any octet above 255, any suffix outside 8-32, and any non-numeric
component. -/
theorem validateIPv4OrCIDR_correct (s : String) :
    validateIPv4OrCIDR s = true ↔ specIPv4OrCIDR s.toList = true := by
  unfold validateIPv4OrCIDR specIPv4OrCIDR
  rw [ipv4Match_eq_specDottedQuad, cidrMatch_eq_specQuadWithSuffix]

theorem updateListItems_requests (listId : String) (validIPs : List String) (env : Env)
    (t : Except String UpdateResp) :
    (updateListItems listId validIPs env t).2 =
      [Request.putItems env.ACCOUNT_ID listId (validIPs.map (fun ip => ListItem.mk ip))] := by
  cases t with
  | error e => rfl
  | ok r =>
    unfold updateListItems
    by_cases h : statusOk r.status <;> simp [h]

theorem find?_of_filter_cons {α : Type} (p : α → Bool) (l : List α) (a : α) (rest : List α)
    (h : l.filter p = a :: rest) : l.find? p = some a := by
  induction l with
  | nil => simp at h
  | cons x xs ih =>
    rw [List.filter_cons] at h
    by_cases hx : p x
    · simp only [hx, if_true] at h
      rw [List.find?_cons_of_pos _ hx]
      exact congrArg some (List.cons.inj h).1
    · simp only [hx, if_false, Bool.false_eq_true] at h
      rw [List.find?_cons_of_neg _ hx]
      exact ih h

/-- Claim C4 (amended): for every listId and validated set, the reconciler
builds one `{ ip }` record per entry in order, issues a single
full-replacement PUT with exactly that set, and on success returns the
parsed JSON body of the update response (the source returns
`updateResponse.json()`, not the item count); in particular the input
`["1.2.3.4", "1.2.3.0/24", "999.1.1.1", "10.0.0.0/33"]` validates to
`["1.2.3.4", "1.2.3.0/24"]` and yields the request body
`[{ip: "1.2.3.4"}, {ip: "1.2.3.0/24"}]`. -/
theorem updateListItems_single_put (listId : String) (validIPs : List String) (env : Env)
    (t : Except String UpdateResp) :
    (updateListItems listId validIPs env t).2 =
      [Request.putItems env.ACCOUNT_ID listId (validIPs.map (fun ip => ListItem.mk ip))]
    ∧ (∀ r, t = Except.ok r → statusOk r.status = true →
        (updateListItems listId validIPs env t).1 = Except.ok r.body)
    ∧ validatedSet [("1.2.3.4"), ("1.2.3.0/24"), ("999.1.1.1"), ("10.0.0.0/33")] =
        [("1.2.3.4"), ("1.2.3.0/24")]
    ∧ ([("1.2.3.4"), ("1.2.3.0/24")].map (fun ip => ListItem.mk ip)) =
        [ListItem.mk ("1.2.3.4"), ListItem.mk ("1.2.3.0/24")] := by
  refine ⟨updateListItems_requests listId validIPs env t, ?_, by decide, rfl⟩
  rintro r rfl hok
  unfold updateListItems
  simp [hok]

/-- Witness for claim C4's theorem at a concrete successful update. -/
theorem updateListItems_single_put_witness :
    ((Except.ok sampleUpdateResp : Except String UpdateResp) = Except.ok sampleUpdateResp ∧
      statusOk sampleUpdateResp.status = true)
    ∧ ((updateListItems ("list1") [("1.2.3.4")] sampleEnv (Except.ok sampleUpdateResp)).2 =
        [Request.putItems sampleEnv.ACCOUNT_ID ("list1")
          ([("1.2.3.4")].map (fun ip => ListItem.mk ip))]
      ∧ (∀ r, (Except.ok sampleUpdateResp : Except String UpdateResp) = Except.ok r →
          statusOk r.status = true →
          (updateListItems ("list1") [("1.2.3.4")] sampleEnv
            (Except.ok sampleUpdateResp)).1 = Except.ok r.body)
      ∧ validatedSet [("1.2.3.4"), ("1.2.3.0/24"), ("999.1.1.1"), ("10.0.0.0/33")] =
          [("1.2.3.4"), ("1.2.3.0/24")]
      ∧ ([("1.2.3.4"), ("1.2.3.0/24")].map (fun ip => ListItem.mk ip)) =
          [ListItem.mk ("1.2.3.4"), ListItem.mk ("1.2.3.0/24")]) :=
  ⟨⟨rfl, by decide⟩,
   updateListItems_single_put ("list1") [("1.2.3.4")] sampleEnv (Except.ok sampleUpdateResp)⟩

/-- Counterexample to claim C4 as stated: on a successful PUT the
reconciler returns the parsed JSON body of the response, which is not the
item count (here the set has 2 items but the returned value is the
response's body, a JSON string). -/
theorem updateListItems_not_item_count :
    (updateListItems ("list1") [("1.2.3.4"), ("1.2.3.0/24")] sampleEnv
        (Except.ok sampleUpdateResp)).1 = Except.ok (Json.str ("api-response"))
    ∧ (Except.ok (Json.str ("api-response")) : Except String Json) ≠
        Except.ok (Json.num 2) := by
  refine ⟨rfl, fun h => ?_⟩
  have hb : Json.str ("api-response") = Json.num 2 := (Except.ok.inj h)
  exact Json.noConfusion hb

/-- Claim C6: the source fetcher issues exactly one retrieval per call
(no internal retry), and raises a fetch failure exactly when the transport
call is rejected or the response status is outside the success range. -/
theorem fetchIPv4List_spec (sourceURL : String) (t : Except String FetchResp) :
    (fetchIPv4List sourceURL t).2 = [Request.getSource sourceURL]
    ∧ ((∃ e, (fetchIPv4List sourceURL t).1 = Except.error e) ↔
        (∃ e, t = Except.error e) ∨ (∃ r, t = Except.ok r ∧ statusOk r.status = false)) := by
  cases t with
  | error e =>
    exact ⟨rfl, by simp [fetchIPv4List]⟩
  | ok r =>
    unfold fetchIPv4List
    by_cases h : statusOk r.status <;> simp [h]

/-- Claim C7: the validated set is exactly the order-preserving subsequence
of entries individually accepted by the validator, its size is at most the
input size, and duplicates are retained. -/
theorem validatedSet_spec (l : List String) :
    List.Sublist (validatedSet l) l
    ∧ (∀ x, x ∈ validatedSet l ↔ x ∈ l ∧ validateIPv4OrCIDR x = true)
    ∧ (validatedSet l).length ≤ l.length
    ∧ (∀ x, (validatedSet l).count x =
        if validateIPv4OrCIDR x = true then l.count x else 0) := by
  refine ⟨List.filter_sublist l, fun x => List.mem_filter, List.length_filter_le _ l, fun x => ?_⟩
  by_cases hx : validateIPv4OrCIDR x = true
  · rw [if_pos hx]
    exact List.count_filter hx
  · rw [if_neg hx]
    rw [List.count_eq_zero]
    intro hmem
    exact hx (List.mem_filter.mp hmem).2

/-- Claim C8: reconciliation is idempotent under the full-replace
semantics of the item PUT: applying the reconciler's request trace twice
with the same validated set leaves the same final remote content as
applying it once, and that content is exactly the validated set's item
records, independent of the prior content (never a merge). -/
theorem updateListItems_idempotent (listId : String) (validIPs : List String) (env : Env)
    (t1 t2 : Except String UpdateResp) (prior : List ListItem) :
    applyRequests (applyRequests prior (updateListItems listId validIPs env t1).2)
        (updateListItems listId validIPs env t2).2
      = applyRequests prior (updateListItems listId validIPs env t1).2
    ∧ applyRequests prior (updateListItems listId validIPs env t1).2 =
        validIPs.map (fun ip => ListItem.mk ip)
    ∧ (applyRequests prior (updateListItems listId validIPs env t1).2).map ListItem.ip =
        validIPs := by
  rw [updateListItems_requests, updateListItems_requests]
  refine ⟨rfl, rfl, ?_⟩
  show (validIPs.map (fun ip => ListItem.mk ip)).map ListItem.ip = validIPs
  rw [List.map_map]
  exact List.map_id validIPs

theorem scheduled_requests_eq (env : Env) (o : Oracle) :
    (scheduled env o).requests = (runSteps env o).requests := by
  cases hres : (runSteps env o).result with
  | error e => simp [scheduled, hres]
  | ok val => cases val <;> simp [scheduled, hres]

theorem putItems_from_resolver (env : Env) (o : Oracle) (accountId listId : String)
    (items : List ListItem)
    (hmem : Request.putItems accountId listId items ∈ (runSteps env o).requests) :
    (getOrCreateList env o.listsResult o.createResult).1 = Except.ok listId := by
  obtain ⟨fr, lr, cr, ur⟩ := o
  cases fr with
  | error e => simp [runSteps, fetchIPv4List] at hmem
  | ok r =>
    by_cases hs : statusOk r.status
    · cases hl : validatedSet r.body with
      | nil => simp [runSteps, fetchIPv4List, hs, hl] at hmem
      | cons hd tl =>
        cases lr with
        | error e => simp [runSteps, fetchIPv4List, getOrCreateList, hs, hl] at hmem
        | ok lresp =>
          by_cases hls : statusOk lresp.status
          · cases hfind : lresp.result.find? (fun list => list.name == env.LIST_NAME) with
            | some existingList =>
              cases ur with
              | error e =>
                simp [runSteps, fetchIPv4List, getOrCreateList, updateListItems,
                  hs, hl, hls, hfind] at hmem
                simp [getOrCreateList, hls, hfind, hmem]
              | ok u =>
                by_cases hus : statusOk u.status <;>
                · simp [runSteps, fetchIPv4List, getOrCreateList, updateListItems,
                    hs, hl, hls, hfind, hus] at hmem
                  simp [getOrCreateList, hls, hfind, hmem]
            | none =>
              cases cr with
              | error e =>
                simp [runSteps, fetchIPv4List, getOrCreateList, hs, hl, hls, hfind] at hmem
              | ok c =>
                by_cases hcs : statusOk c.status
                · cases ur with
                  | error e =>
                    simp [runSteps, fetchIPv4List, getOrCreateList, updateListItems,
                      hs, hl, hls, hfind, hcs] at hmem
                    simp [getOrCreateList, hls, hfind, hcs, hmem]
                  | ok u =>
                    by_cases hus : statusOk u.status <;>
                    · simp [runSteps, fetchIPv4List, getOrCreateList, updateListItems,
                        hs, hl, hls, hfind, hcs, hus] at hmem
                      simp [getOrCreateList, hls, hfind, hcs, hmem]
                · simp [runSteps, fetchIPv4List, getOrCreateList, hs, hl, hls, hfind, hcs]
                    at hmem
          · simp [runSteps, fetchIPv4List, getOrCreateList, hs, hl, hls] at hmem
    · simp [runSteps, fetchIPv4List, hs] at hmem

/-- Claim C1: when the fetch succeeds but the validated set is empty, the
scheduled run aborts without invoking the resolver or the reconciler (the
request trace is exactly the one source GET) and the remote list's content
is left unchanged by the trace. -/
theorem scheduled_empty_guard (env : Env) (o : Oracle) (r : FetchResp)
    (hf : o.fetchResult = Except.ok r) (hs : statusOk r.status = true)
    (he : validatedSet r.body = []) :
    (scheduled env o).outcome = SchedOutcome.emptyAbort
    ∧ (scheduled env o).requests = [Request.getSource env.IP_LIST_SOURCE_URL]
    ∧ (∀ prior : List ListItem, applyRequests prior (scheduled env o).requests = prior) := by
  have hrun : (runSteps env o).result = Except.ok none ∧
      (runSteps env o).requests = [Request.getSource env.IP_LIST_SOURCE_URL] := by
    unfold runSteps fetchIPv4List
    rw [hf]
    simp [hs, he]
  have hsch : scheduled env o =
      ⟨SchedOutcome.emptyAbort, (runSteps env o).requests, (runSteps env o).logs⟩ := by
    simp [scheduled, hrun.1]
  rw [hsch, hrun.2]
  exact ⟨rfl, rfl, fun prior => rfl⟩

/-- Witness for claim C1's theorem: a delivered feed whose entries are all
rejected by the validator leads to the empty-set abort. -/
theorem scheduled_empty_guard_witness :
    (scheduled sampleEnv oracleAllInvalid).outcome = SchedOutcome.emptyAbort :=
  (scheduled_empty_guard sampleEnv oracleAllInvalid ⟨200, [("not-an-ip"), ("999.1.1.1")]⟩
    rfl (by decide) (by decide)).1

/-- Claim C5: every error raised inside a scheduled run reaches the catch
block: the handler returns normally with the `failed` outcome, and the logs
carry the error message line and the stack-trace line.  Totality of
`scheduled` (its return type has no error case) is the embedding of "never
propagates an exception to the host". -/
theorem scheduled_catches (env : Env) (o : Oracle) (e : String)
    (h : (runSteps env o).result = Except.error e) :
    (scheduled env o).outcome = SchedOutcome.failed e
    ∧ (scheduled env o).requests = (runSteps env o).requests
    ∧ (scheduled env o).logs = (runSteps env o).logs ++ catchLogs e
    ∧ LogEntry.errorLine (("Error during scheduled task: ") ++ e) ∈ (scheduled env o).logs
    ∧ LogEntry.stackTrace ∈ (scheduled env o).logs := by
  have hsch : scheduled env o =
      ⟨SchedOutcome.failed e, (runSteps env o).requests, (runSteps env o).logs ++ catchLogs e⟩ := by
    simp [scheduled, h]
  rw [hsch]
  refine ⟨rfl, rfl, rfl, ?_, ?_⟩ <;> simp [catchLogs]

/-- Witness for claim C5's theorem: a transport-level fetch rejection is
caught and mapped to the `failed` outcome. -/
theorem scheduled_catches_witness :
    (scheduled sampleEnv oracleFetchDown).outcome = SchedOutcome.failed ("network down") :=
  (scheduled_catches sampleEnv oracleFetchDown ("network down") rfl).1

/-- Claim C3: the resolver first requests the full list collection; if a
list named `LIST_NAME` exists it returns that id and issues zero creation
requests; otherwise it issues exactly one creation request with kind "ip"
and the fixed description and returns the created id, and the id the
resolver returns is the one every item PUT of the same run carries. -/
theorem getOrCreateList_spec (env : Env) (listsT : Except String ListsResp)
    (createT : Except String CreateResp) (resp : ListsResp)
    (hT : listsT = Except.ok resp) (hok : statusOk resp.status = true) :
    (getOrCreateList env listsT createT).2.head? = some (Request.getLists env.ACCOUNT_ID)
    ∧ (∀ l, resp.result.find? (fun x => x.name == env.LIST_NAME) = some l →
        getOrCreateList env listsT createT =
          (Except.ok l.id, [Request.getLists env.ACCOUNT_ID]))
    ∧ (resp.result.find? (fun x => x.name == env.LIST_NAME) = none →
        (getOrCreateList env listsT createT).2 =
          [Request.getLists env.ACCOUNT_ID,
           Request.createList env.ACCOUNT_ID env.LIST_NAME ("ip") listDescription]
        ∧ ∀ c, createT = Except.ok c → statusOk c.status = true →
            (getOrCreateList env listsT createT).1 = Except.ok c.newId)
    ∧ (∀ o : Oracle, o.listsResult = listsT → o.createResult = createT →
        ∀ id, (getOrCreateList env listsT createT).1 = Except.ok id →
        ∀ accountId listId items,
          Request.putItems accountId listId items ∈ (scheduled env o).requests →
            listId = id) := by
  subst hT
  refine ⟨?_, ?_, ?_, ?_⟩
  · unfold getOrCreateList
    simp only [hok, Bool.not_true, Bool.false_eq_true, if_false]
    cases hfind : resp.result.find? (fun list => list.name == env.LIST_NAME) with
    | some l => rfl
    | none =>
      cases createT with
      | error e => rfl
      | ok c => by_cases hcs : statusOk c.status <;> simp [hcs]
  · intro l hl
    unfold getOrCreateList
    simp [hok, hl]
  · intro hnone
    unfold getOrCreateList
    simp only [hok, Bool.not_true, Bool.false_eq_true, if_false, hnone]
    constructor
    · cases createT with
      | error e => rfl
      | ok c =>
        by_cases hcs : statusOk c.status <;> simp [hcs]
    · rintro c rfl hcs
      simp [hcs]
  · intro o ho1 ho2 id hid accountId listId items hmem
    rw [scheduled_requests_eq] at hmem
    have hres := putItems_from_resolver env o accountId listId items hmem
    rw [ho1, ho2, hid] at hres
    exact (Except.ok.inj hres).symm

/-- Witness for claim C3's theorem: with a delivered list collection the
resolver's first request is the collection GET. -/
theorem getOrCreateList_spec_witness :
    (getOrCreateList sampleEnv (Except.ok sampleListsResp) (Except.ok sampleCreateResp)).2.head?
      = some (Request.getLists sampleEnv.ACCOUNT_ID) :=
  (getOrCreateList_spec sampleEnv (Except.ok sampleListsResp) (Except.ok sampleCreateResp)
    sampleListsResp rfl (by decide)).1

/-- Claim C10: when several lists carry the configured name, the resolver
returns the id of the first matching list in response order, issues no
creation request, and raises no error. -/
theorem getOrCreateList_first_match (env : Env) (listsT : Except String ListsResp)
    (createT : Except String CreateResp) (resp : ListsResp) (l : ListInfo)
    (rest : List ListInfo) (hT : listsT = Except.ok resp)
    (hok : statusOk resp.status = true)
    (hfilter : resp.result.filter (fun x => x.name == env.LIST_NAME) = l :: rest)
    (_hmulti : rest ≠ []) :
    getOrCreateList env listsT createT = (Except.ok l.id, [Request.getLists env.ACCOUNT_ID]) := by
  subst hT
  have hfind : resp.result.find? (fun x => x.name == env.LIST_NAME) = some l :=
    find?_of_filter_cons _ _ _ _ hfilter
  unfold getOrCreateList
  simp [hok, hfind]

/-- Witness for claim C10's theorem: two lists named `icloud_relay`; the
resolver returns the first one's id with a single lookup request. -/
theorem getOrCreateList_first_match_witness :
    getOrCreateList sampleEnv (Except.ok sampleListsResp) (Except.error ("x"))
      = (Except.ok ("id-first"), [Request.getLists sampleEnv.ACCOUNT_ID]) :=
  getOrCreateList_first_match sampleEnv (Except.ok sampleListsResp) (Except.error ("x"))
    sampleListsResp ⟨("id-first"), ("icloud_relay"), ("ip"), ("d1")⟩
    [⟨("id-second"), ("icloud_relay"), ("ip"), ("d2")⟩] rfl (by decide) (by decide)
    (by decide)

/-- Claim C9: a GET to `/info` returns 200 with the JSON info body (with
`worker_name`, `cron_trigger_info` holding description, cron schedule and
time zone, and `status`), a GET to any other path returns 404, and any
non-GET method returns 405. -/
theorem fetchHandler_routes (method pathname : String) :
    ((fetchHandler ⟨method, pathname⟩).status =
      if method = "GET" then (if pathname = "/info" then 200 else 404) else 405)
    ∧ fetchHandler ⟨("GET"), ("/info")⟩ = ⟨200, infoBody⟩
    ∧ infoBody.getField? ("worker_name") =
        some (Json.str ("iCloud Private Relay IP List Manager"))
    ∧ infoBody.getField? ("cron_trigger_info") = some cronTriggerInfo
    ∧ cronTriggerInfo.getField? ("description") = some (Json.str
        ("This Worker is scheduled to run every 14 days to fetch and update an IPv4 list."))
    ∧ cronTriggerInfo.getField? ("cron_schedule") = some (Json.str ("0 0 */14 * *"))
    ∧ cronTriggerInfo.getField? ("time_zone") = some (Json.str ("UTC"))
    ∧ infoBody.getField? ("status") = some (Json.str ("Worker is running")) := by
  refine ⟨?_, rfl, rfl, rfl, rfl, rfl, rfl, rfl⟩
  unfold fetchHandler handleGetRequest
  by_cases hm : method = "GET"
  · by_cases hp : pathname = "/info" <;> simp [hm, hp]
  · simp [hm]

end Relay
